import Mathlib

/-!
Verification of the step-scaling policy construction
(`step-scaling-policy.ts` of the aws-autoscaling package).

The policy constructor itself (`StepScalingPolicy`), the statistic mapping
(`aggregationTypeFromMetric`) and the step-adjustment loops are embedded
directly from the source.  The interval utilities (`normalizeIntervals`,
`findAlarmThresholds` from `interval-utils.ts`) are not part of the
available sources; they are modelled from the specification (sections 4.1
and 4.2), as indicated on their doc comments.

Numbers (interval boundaries, thresholds, capacity changes) are modelled
as `Int`; absent (`undefined`) boundaries as `Option Int`, following the
spec note that unbounded ends are represented by absent numeric fields.
-/

namespace StepScaling

/-- A user-supplied scaling interval: optional bounds (absent = infinite on
that side) and a capacity change.  Mirrors `ScalingInterval` from
`interval-types.ts`; after normalization the same shape is reused, with all
inner bounds filled in. -/
structure ScalingInterval where
  lower : Option Int
  upper : Option Int
  change : Int
deriving DecidableEq, Repr, Inhabited

/-- Result of `findAlarmThresholds`: which interval (if any) anchors the
lower alarm and which anchors the upper alarm. -/
structure AlarmThresholdResult where
  lowerAlarmIntervalIndex : Option Nat
  upperAlarmIntervalIndex : Option Nat
deriving DecidableEq, Repr

/-- Modelled from the spec: the sort key used by `normalizeIntervals`
(interval-utils is missing from the sources).  Spec 4.1 step 1: sort by the
defined boundary value, using `lower` if present, else `upper`. -/
def sortKey (i : ScalingInterval) : Int :=
  i.lower.getD (i.upper.getD 0)

/-- Modelled from the spec: one step of the boundary fill walk of
`normalizeIntervals` (interval-utils is missing from the sources), with
`a` the interval currently looked at and the list its successors.  Spec
4.1 step 2: a missing `upper` becomes the next interval's `lower`, a
missing `lower` becomes the previous interval's `upper`. -/
def fillAux (a : ScalingInterval) : List ScalingInterval → List ScalingInterval
  | [] => [a]
  | b :: rest =>
      let a' := if a.upper.isNone then { a with upper := b.lower } else a
      let b' := if b.lower.isNone then { b with lower := a'.upper } else b
      a' :: fillAux b' rest

/-- Modelled from the spec: boundary fill of `normalizeIntervals`
(interval-utils is missing from the sources).  Spec 4.1 step 2: walk the
sorted sequence and fill each interval's missing boundary from its
neighbor.  The two outermost intervals keep their open boundary. -/
def fillBoundaries : List ScalingInterval → List ScalingInterval
  | [] => []
  | a :: rest => fillAux a rest

/-- Modelled from the spec: contiguity validation of `normalizeIntervals`
(interval-utils is missing from the sources).  Spec 4.1 step 4: each
interval's `upper` equals the next interval's `lower` exactly. -/
def contiguous : List ScalingInterval → Bool
  | a :: b :: rest => decide (a.upper = b.lower) && contiguous (b :: rest)
  | _ => true

/-- Modelled from the spec: `normalizeIntervals` from `interval-utils.ts`,
which is missing from the sources.  Spec 4.1: reject more than one open
lower or more than one open upper bound; sort by the defined boundary
value (stably); fill missing inner boundaries from neighbors; the
`changesAreAbsolute` flag is a pass-through that transforms no numeric
data; finally validate contiguity, raising a configuration error on a
gap. -/
def normalizeIntervals (steps : List ScalingInterval) (changesAreAbsolute : Bool) :
    Except String (List ScalingInterval) :=
  if 1 < (steps.filter (fun s => s.lower.isNone)).length
      ∨ 1 < (steps.filter (fun s => s.upper.isNone)).length then
    .error "Can only have one interval with an open lower bound and one with an open upper bound"
  else if contiguous
      (fillBoundaries (List.insertionSort (fun a b => sortKey a ≤ sortKey b) steps)) then
    .ok (fillBoundaries (List.insertionSort (fun a b => sortKey a ≤ sortKey b) steps))
  else
    .error "Gaps or overlaps between the scaling intervals"

/-- Modelled from the spec: `findAlarmThresholds` from `interval-utils.ts`,
which is missing from the sources.  Spec 4.2: locate the neutral interval
(`change = 0`) by scanning; the lower alarm index is the interval
immediately below it when that interval has non-zero change, the upper
alarm index is the interval immediately above it when that interval has
non-zero change.  When no interval has zero change the behavior is
underspecified; no alarm index is produced. -/
def findAlarmThresholds (intervals : List ScalingInterval) : AlarmThresholdResult :=
  match intervals.findIdx? (fun i => i.change == 0) with
  | none => { lowerAlarmIntervalIndex := none, upperAlarmIntervalIndex := none }
  | some j =>
      { lowerAlarmIntervalIndex :=
          if 0 < j ∧ (intervals.getD (j - 1) default).change ≠ 0 then some (j - 1) else none
        upperAlarmIntervalIndex :=
          if j + 1 < intervals.length ∧ (intervals.getD (j + 1) default).change ≠ 0 then
            some (j + 1)
          else none }

/-- How adjustment numbers are interpreted (`step-scaling-action.ts`). -/
inductive AdjustmentType
  | ChangeInCapacity
  | PercentChangeInCapacity
  | ExactCapacity
deriving DecidableEq, Repr

/-- Aggregation of the metric in the scaling policy (`step-scaling-action.ts`). -/
inductive MetricAggregationType
  | Average
  | Minimum
  | Maximum
deriving DecidableEq, Repr

/-- CloudWatch alarm comparison operators used by the policy. -/
inductive ComparisonOperator
  | LessThanOrEqualToThreshold
  | GreaterThanOrEqualToThreshold
deriving DecidableEq, Repr

/-- The relevant part of a CloudWatch metric: its statistic and its
aggregation period in seconds. -/
structure Metric where
  statistic : String
  periodSec : Int
deriving DecidableEq, Repr

/-- Embeds `metric.with({ periodSec: p })`: the same metric with its period
replaced. -/
def Metric.withPeriod (m : Metric) (p : Int) : Metric :=
  { m with periodSec := p }

/-- One entry of a step-adjustment table, with bounds relative to the
alarm threshold; an absent bound extends to infinity. -/
structure StepAdjustment where
  adjustment : Int
  lowerBound : Option Int
  upperBound : Option Int
deriving DecidableEq, Repr, Inhabited

/-- The configuration the constructor feeds into a `StepScalingAction`,
together with the adjustments added to it. -/
structure StepScalingActionModel where
  adjustmentType : Option AdjustmentType
  cooldownSeconds : Option Int
  metricAggregationType : MetricAggregationType
  minAdjustmentMagnitude : Option Int
  adjustments : List StepAdjustment
deriving DecidableEq, Repr

/-- The configuration the constructor feeds into a CloudWatch `Alarm`. -/
structure AlarmModel where
  metric : Metric
  comparisonOperator : ComparisonOperator
  evaluationPeriods : Nat
  threshold : Option Int
deriving DecidableEq, Repr

/-- The properties of `StepScalingPolicy` relevant to its computation
(`BasicStepScalingPolicyProps`). -/
structure StepScalingPolicyProps where
  metric : Metric
  scalingSteps : List ScalingInterval
  adjustmentType : Option AdjustmentType
  cooldownSeconds : Option Int
  estimatedInstanceWarmupSeconds : Option Int
  minAdjustmentMagnitude : Option Int
deriving DecidableEq, Repr

/-- The observable outcome of constructing a `StepScalingPolicy`: the
optional lower/upper alarms and their actions. -/
structure StepScalingPolicyResult where
  lowerAlarm : Option AlarmModel
  lowerAction : Option StepScalingActionModel
  upperAlarm : Option AlarmModel
  upperAction : Option StepScalingActionModel
deriving DecidableEq, Repr

/-- Embeds `aggregationTypeFromMetric`: only the Average, Minimum and
Maximum statistics are supported; anything else is a construction-time
error. -/
def aggregationTypeFromMetric (metric : Metric) : Except String MetricAggregationType :=
  match metric.statistic with
  | "Average" => .ok MetricAggregationType.Average
  | "Minimum" => .ok MetricAggregationType.Minimum
  | "Maximum" => .ok MetricAggregationType.Maximum
  | _ => .error ("Cannot only scale on \x27Minimum\x27, \x27Maximum\x27, \x27Average\x27 metrics, got "
      ++ metric.statistic)

/-- Subtraction on optional numbers: defined only when both operands are.
Used for the `bound - threshold` arithmetic of the step tables, where every
bound actually read is defined. -/
def osub : Option Int → Option Int → Option Int
  | some a, some b => some (a - b)
  | _, _ => none

/-- Embeds the constructor's defaulting of the adjustment type and the
`changesAreAbsolute` flag: the adjustment type defaults to
`ChangeInCapacity`, and changes are absolute exactly for `ExactCapacity`. -/
def changesAreAbsoluteOf (props : StepScalingPolicyProps) : Bool :=
  decide ((props.adjustmentType.getD AdjustmentType.ChangeInCapacity) =
    AdjustmentType.ExactCapacity)

/-- Embeds the lower-direction adjustment loop of the constructor: walk
from the alarm interval down to index 0; each entry carries the interval's
change and its bounds shifted by the threshold, except that the entry for
index 0 has its lower bound forced open (extend to minus infinity). -/
def lowerStepAdjustments (intervals : List ScalingInterval) (idx : Nat)
    (threshold : Option Int) : List StepAdjustment :=
  (List.range (idx + 1)).reverse.map fun i =>
    { adjustment := (intervals.getD i default).change
      lowerBound := if i ≠ 0 then osub (intervals.getD i default).lower threshold else none
      upperBound := osub (intervals.getD i default).upper threshold }

/-- Embeds the upper-direction adjustment loop of the constructor: walk
from the alarm interval up to the last index; each entry carries the
interval's change and its bounds shifted by the threshold, except that the
entry for the last index has its upper bound forced open (extend to plus
infinity). -/
def upperStepAdjustments (intervals : List ScalingInterval) (idx : Nat)
    (threshold : Option Int) : List StepAdjustment :=
  (List.range' idx (intervals.length - idx)).map fun i =>
    { adjustment := (intervals.getD i default).change
      lowerBound := osub (intervals.getD i default).lower threshold
      upperBound :=
        if i ≠ intervals.length - 1 then osub (intervals.getD i default).upper threshold
        else none }

/-- Embeds the lower-alarm branch of the constructor: when a lower alarm
interval exists, the threshold is that interval's upper bound; the action
is built (resolving the aggregation type, which can fail) and the alarm
compares with less-or-equal over one evaluation period on the metric with
a 60-second period. -/
def buildLower (props : StepScalingPolicyProps) (intervals : List ScalingInterval) :
    Option Nat → Except String (Option (AlarmModel × StepScalingActionModel))
  | none => .ok none
  | some idx =>
      match aggregationTypeFromMetric props.metric with
      | .error e => .error e
      | .ok agg =>
          let threshold := (intervals.getD idx default).upper
          .ok (some
            ({ metric := props.metric.withPeriod 60
               comparisonOperator := ComparisonOperator.LessThanOrEqualToThreshold
               evaluationPeriods := 1
               threshold := threshold },
             { adjustmentType := props.adjustmentType
               cooldownSeconds := props.cooldownSeconds
               metricAggregationType := agg
               minAdjustmentMagnitude := props.minAdjustmentMagnitude
               adjustments := lowerStepAdjustments intervals idx threshold }))

/-- Embeds the upper-alarm branch of the constructor: when an upper alarm
interval exists, the threshold is that interval's lower bound; the action
is built (resolving the aggregation type, which can fail) and the alarm
compares with greater-or-equal over one evaluation period on the metric
with a 60-second period. -/
def buildUpper (props : StepScalingPolicyProps) (intervals : List ScalingInterval) :
    Option Nat → Except String (Option (AlarmModel × StepScalingActionModel))
  | none => .ok none
  | some idx =>
      match aggregationTypeFromMetric props.metric with
      | .error e => .error e
      | .ok agg =>
          let threshold := (intervals.getD idx default).lower
          .ok (some
            ({ metric := props.metric.withPeriod 60
               comparisonOperator := ComparisonOperator.GreaterThanOrEqualToThreshold
               evaluationPeriods := 1
               threshold := threshold },
             { adjustmentType := props.adjustmentType
               cooldownSeconds := props.cooldownSeconds
               metricAggregationType := agg
               minAdjustmentMagnitude := props.minAdjustmentMagnitude
               adjustments := upperStepAdjustments intervals idx threshold }))

/-- Embeds the `StepScalingPolicy` constructor: reject fewer than two
intervals, normalize them with the `changesAreAbsolute` flag, find the
alarm thresholds, then build the lower and the upper alarm (either of
which may be absent, and either of which may fail on an unsupported
statistic). -/
def stepScalingPolicy (props : StepScalingPolicyProps) :
    Except String StepScalingPolicyResult :=
  if props.scalingSteps.length < 2 then
    .error "You must supply at least 2 intervals for autoscaling"
  else
    match normalizeIntervals props.scalingSteps (changesAreAbsoluteOf props) with
    | .error e => .error e
    | .ok intervals =>
        match buildLower props intervals (findAlarmThresholds intervals).lowerAlarmIntervalIndex with
        | .error e => .error e
        | .ok lowerPair =>
            match buildUpper props intervals
                (findAlarmThresholds intervals).upperAlarmIntervalIndex with
            | .error e => .error e
            | .ok upperPair =>
                .ok { lowerAlarm := lowerPair.map Prod.fst
                      lowerAction := lowerPair.map Prod.snd
                      upperAlarm := upperPair.map Prod.fst
                      upperAction := upperPair.map Prod.snd }

/-- Spec predicate for an already-normalized sequence: every interval's
upper bound is defined and equal to the next interval's lower bound (so the
sequence is contiguous and all inner bounds are filled). -/
def wellChained : List ScalingInterval → Bool
  | a :: b :: rest => (a.upper.isSome && decide (a.upper = b.lower)) && wellChained (b :: rest)
  | _ => true

/-- The outcome components of a policy that do not include the raw
adjustment-type pass-through stored on the actions: the two alarms and the
two adjustment tables. -/
def observableOutcome (r : StepScalingPolicyResult) :
    Option AlarmModel × Option AlarmModel × Option (List StepAdjustment)
      × Option (List StepAdjustment) :=
  (r.lowerAlarm, r.upperAlarm,
   r.lowerAction.map (fun a => a.adjustments),
   r.upperAction.map (fun a => a.adjustments))

/-- The worked example of the spec: scale down below 10, neutral between
10 and 50, scale up above 50. -/
def exampleSteps : List ScalingInterval :=
  [ { lower := none, upper := some 10, change := -1 },
    { lower := some 10, upper := some 50, change := 0 },
    { lower := some 50, upper := none, change := 1 } ]

/-- Properties for the worked example, on an Average-statistic metric with
a 300-second configured period, with every optional property omitted. -/
def exampleProps : StepScalingPolicyProps :=
  { metric := { statistic := "Average", periodSec := 300 }
    scalingSteps := exampleSteps
    adjustmentType := none
    cooldownSeconds := none
    estimatedInstanceWarmupSeconds := none
    minAdjustmentMagnitude := none }

/-- The lower alarm the worked example is expected to produce. -/
def exampleLowerAlarm : AlarmModel :=
  { metric := { statistic := "Average", periodSec := 60 }
    comparisonOperator := ComparisonOperator.LessThanOrEqualToThreshold
    evaluationPeriods := 1
    threshold := some 10 }

/-- The lower action the worked example is expected to produce. -/
def exampleLowerAction : StepScalingActionModel :=
  { adjustmentType := none
    cooldownSeconds := none
    metricAggregationType := MetricAggregationType.Average
    minAdjustmentMagnitude := none
    adjustments := [{ adjustment := -1, lowerBound := none, upperBound := some 0 }] }

/-- The upper alarm the worked example is expected to produce. -/
def exampleUpperAlarm : AlarmModel :=
  { metric := { statistic := "Average", periodSec := 60 }
    comparisonOperator := ComparisonOperator.GreaterThanOrEqualToThreshold
    evaluationPeriods := 1
    threshold := some 50 }

/-- The upper action the worked example is expected to produce. -/
def exampleUpperAction : StepScalingActionModel :=
  { adjustmentType := none
    cooldownSeconds := none
    metricAggregationType := MetricAggregationType.Average
    minAdjustmentMagnitude := none
    adjustments := [{ adjustment := 1, lowerBound := some 0, upperBound := none }] }

/-- The policy outcome the worked example is expected to produce. -/
def exampleResult : StepScalingPolicyResult :=
  { lowerAlarm := some exampleLowerAlarm
    lowerAction := some exampleLowerAction
    upperAlarm := some exampleUpperAlarm
    upperAction := some exampleUpperAction }

/-- Two neutral intervals covering the whole line: no scaling is ever
needed, so no alarm is derived in either direction. -/
def allNeutralSteps : List ScalingInterval :=
  [ { lower := none, upper := some 10, change := 0 },
    { lower := some 10, upper := none, change := 0 } ]

/-- Properties combining an unsupported p99 statistic with the all-neutral
intervals: no alarm is derived, so the statistic is never examined. -/
def p99NeutralProps : StepScalingPolicyProps :=
  { metric := { statistic := "p99", periodSec := 300 }
    scalingSteps := allNeutralSteps
    adjustmentType := none
    cooldownSeconds := none
    estimatedInstanceWarmupSeconds := none
    minAdjustmentMagnitude := none }

/-- Properties combining an unsupported p99 statistic with the worked
example intervals, which do derive alarms. -/
def p99ExampleProps : StepScalingPolicyProps :=
  { metric := { statistic := "p99", periodSec := 300 }
    scalingSteps := exampleSteps
    adjustmentType := none
    cooldownSeconds := none
    estimatedInstanceWarmupSeconds := none
    minAdjustmentMagnitude := none }

/-- Properties with a single scaling interval. -/
def singleIntervalProps : StepScalingPolicyProps :=
  { metric := { statistic := "Average", periodSec := 300 }
    scalingSteps := [ { lower := none, upper := none, change := 1 } ]
    adjustmentType := none
    cooldownSeconds := none
    estimatedInstanceWarmupSeconds := none
    minAdjustmentMagnitude := none }


/-- C1: the worked example produces lower alarm index 0 with threshold 10
and the singleton lower step table, and upper alarm index 2 with threshold
50 and the singleton upper step table. -/
theorem c1_worked_example :
    normalizeIntervals exampleSteps (changesAreAbsoluteOf exampleProps) = .ok exampleSteps
    ∧ findAlarmThresholds exampleSteps =
        { lowerAlarmIntervalIndex := some 0, upperAlarmIntervalIndex := some 2 }
    ∧ stepScalingPolicy exampleProps = .ok exampleResult := by
  refine ⟨rfl, by decide, rfl⟩

/-- C8: fewer than two scaling intervals is rejected with the exact
configuration error, before anything is produced. -/
theorem c8_insufficient_intervals (props : StepScalingPolicyProps)
    (h : props.scalingSteps.length < 2) :
    stepScalingPolicy props = .error "You must supply at least 2 intervals for autoscaling" := by
  simp [stepScalingPolicy, h]

theorem c8_insufficient_intervals_witness :
    stepScalingPolicy singleIntervalProps =
      .error "You must supply at least 2 intervals for autoscaling" :=
  c8_insufficient_intervals singleIntervalProps (by decide)

/-- C7 counterexample: a p99 metric together with all-neutral intervals
constructs successfully, so an unsupported statistic does not always raise
a configuration error. -/
theorem c7_counterexample :
    stepScalingPolicy p99NeutralProps =
      .ok { lowerAlarm := none, lowerAction := none, upperAlarm := none, upperAction := none } := by
  rfl


lemma stepScalingPolicy_ok_inv (props : StepScalingPolicyProps)
    (res : StepScalingPolicyResult) (hp : stepScalingPolicy props = .ok res) :
    ∃ ivs lowerPair upperPair,
      normalizeIntervals props.scalingSteps (changesAreAbsoluteOf props) = .ok ivs
      ∧ buildLower props ivs (findAlarmThresholds ivs).lowerAlarmIntervalIndex = .ok lowerPair
      ∧ buildUpper props ivs (findAlarmThresholds ivs).upperAlarmIntervalIndex = .ok upperPair
      ∧ res = { lowerAlarm := lowerPair.map Prod.fst, lowerAction := lowerPair.map Prod.snd,
                upperAlarm := upperPair.map Prod.fst, upperAction := upperPair.map Prod.snd } := by
  unfold stepScalingPolicy at hp
  split at hp
  · simp at hp
  · split at hp
    · simp at hp
    · split at hp
      · simp at hp
      · split at hp
        · simp at hp
        · cases hp
          exact ⟨_, _, _, by assumption, by assumption, by assumption, rfl⟩

lemma buildLower_ok_alarm (props : StepScalingPolicyProps) (ivs : List ScalingInterval)
    (o : Option Nat) (pair : Option (AlarmModel × StepScalingActionModel)) (a : AlarmModel)
    (h : buildLower props ivs o = .ok pair) (ha : pair.map Prod.fst = some a) :
    ∃ idx, o = some idx
      ∧ a = { metric := props.metric.withPeriod 60
              comparisonOperator := ComparisonOperator.LessThanOrEqualToThreshold
              evaluationPeriods := 1
              threshold := (ivs.getD idx default).upper } := by
  cases o with
  | none =>
      simp only [buildLower, Except.ok.injEq] at h
      subst h
      simp at ha
  | some idx =>
      refine ⟨idx, rfl, ?_⟩
      unfold buildLower at h
      split at h
      · rename_i heq
        simp at heq
      · rename_i j heq
        injection heq with hj
        subst hj
        split at h
        · exact Except.noConfusion h
        · simp only [Except.ok.injEq] at h
          subst h
          simp only [Option.map_some', Option.some.injEq] at ha
          exact ha.symm


lemma buildUpper_ok_alarm (props : StepScalingPolicyProps) (ivs : List ScalingInterval)
    (o : Option Nat) (pair : Option (AlarmModel × StepScalingActionModel)) (a : AlarmModel)
    (h : buildUpper props ivs o = .ok pair) (ha : pair.map Prod.fst = some a) :
    ∃ idx, o = some idx
      ∧ a = { metric := props.metric.withPeriod 60
              comparisonOperator := ComparisonOperator.GreaterThanOrEqualToThreshold
              evaluationPeriods := 1
              threshold := (ivs.getD idx default).lower } := by
  cases o with
  | none =>
      simp only [buildUpper, Except.ok.injEq] at h
      subst h
      simp at ha
  | some idx =>
      refine ⟨idx, rfl, ?_⟩
      unfold buildUpper at h
      split at h
      · rename_i heq
        simp at heq
      · rename_i j heq
        injection heq with hj
        subst hj
        split at h
        · exact Except.noConfusion h
        · simp only [Except.ok.injEq] at h
          subst h
          simp only [Option.map_some', Option.some.injEq] at ha
          exact ha.symm

lemma buildLower_ok_action (props : StepScalingPolicyProps) (ivs : List ScalingInterval)
    (o : Option Nat) (pair : Option (AlarmModel × StepScalingActionModel))
    (act : StepScalingActionModel)
    (h : buildLower props ivs o = .ok pair) (ha : pair.map Prod.snd = some act) :
    ∃ idx agg, o = some idx
      ∧ aggregationTypeFromMetric props.metric = .ok agg
      ∧ act = { adjustmentType := props.adjustmentType
                cooldownSeconds := props.cooldownSeconds
                metricAggregationType := agg
                minAdjustmentMagnitude := props.minAdjustmentMagnitude
                adjustments := lowerStepAdjustments ivs idx (ivs.getD idx default).upper } := by
  cases o with
  | none =>
      simp only [buildLower, Except.ok.injEq] at h
      subst h
      simp at ha
  | some idx =>
      unfold buildLower at h
      split at h
      · rename_i heq
        simp at heq
      · rename_i j heq
        injection heq with hj
        subst hj
        split at h
        · exact Except.noConfusion h
        · rename_i agg hagg
          refine ⟨idx, agg, rfl, hagg, ?_⟩
          simp only [Except.ok.injEq] at h
          subst h
          simp only [Option.map_some', Option.some.injEq] at ha
          exact ha.symm

lemma buildUpper_ok_action (props : StepScalingPolicyProps) (ivs : List ScalingInterval)
    (o : Option Nat) (pair : Option (AlarmModel × StepScalingActionModel))
    (act : StepScalingActionModel)
    (h : buildUpper props ivs o = .ok pair) (ha : pair.map Prod.snd = some act) :
    ∃ idx agg, o = some idx
      ∧ aggregationTypeFromMetric props.metric = .ok agg
      ∧ act = { adjustmentType := props.adjustmentType
                cooldownSeconds := props.cooldownSeconds
                metricAggregationType := agg
                minAdjustmentMagnitude := props.minAdjustmentMagnitude
                adjustments := upperStepAdjustments ivs idx (ivs.getD idx default).lower } := by
  cases o with
  | none =>
      simp only [buildUpper, Except.ok.injEq] at h
      subst h
      simp at ha
  | some idx =>
      unfold buildUpper at h
      split at h
      · rename_i heq
        simp at heq
      · rename_i j heq
        injection heq with hj
        subst hj
        split at h
        · exact Except.noConfusion h
        · rename_i agg hagg
          refine ⟨idx, agg, rfl, hagg, ?_⟩
          simp only [Except.ok.injEq] at h
          subst h
          simp only [Option.map_some', Option.some.injEq] at ha
          exact ha.symm


/-- C3: whenever a lower alarm interval index is found, the lower alarm
threshold is that interval's upper bound; whenever an upper alarm interval
index is found, the upper alarm threshold is that interval's lower
bound. -/
theorem c3_alarm_thresholds (props : StepScalingPolicyProps)
    (ivs : List ScalingInterval) (res : StepScalingPolicyResult)
    (hn : normalizeIntervals props.scalingSteps (changesAreAbsoluteOf props) = .ok ivs)
    (hp : stepScalingPolicy props = .ok res) :
    (∀ idx a, (findAlarmThresholds ivs).lowerAlarmIntervalIndex = some idx →
        res.lowerAlarm = some a → a.threshold = (ivs.getD idx default).upper)
    ∧ (∀ idx a, (findAlarmThresholds ivs).upperAlarmIntervalIndex = some idx →
        res.upperAlarm = some a → a.threshold = (ivs.getD idx default).lower) := by
  obtain ⟨ivs2, lp, up, hn2, hl, hu, hres⟩ := stepScalingPolicy_ok_inv props res hp
  rw [hn] at hn2
  injection hn2 with hivs
  subst hivs
  constructor
  · intro idx a hidx ha
    rw [hres] at ha
    obtain ⟨idx2, ho, ha2⟩ := buildLower_ok_alarm props ivs
      ((findAlarmThresholds ivs).lowerAlarmIntervalIndex) lp a hl ha
    rw [hidx] at ho
    injection ho with h2
    subst h2
    rw [ha2]
  · intro idx a hidx ha
    rw [hres] at ha
    obtain ⟨idx2, ho, ha2⟩ := buildUpper_ok_alarm props ivs
      ((findAlarmThresholds ivs).upperAlarmIntervalIndex) up a hu ha
    rw [hidx] at ho
    injection ho with h2
    subst h2
    rw [ha2]

theorem c3_alarm_thresholds_witness :
    exampleLowerAlarm.threshold = ((exampleSteps.getD 0 default)).upper
    ∧ exampleUpperAlarm.threshold = ((exampleSteps.getD 2 default)).lower :=
  ⟨(c3_alarm_thresholds exampleProps exampleSteps exampleResult rfl rfl).1 0
      exampleLowerAlarm rfl rfl,
   (c3_alarm_thresholds exampleProps exampleSteps exampleResult rfl rfl).2 2
      exampleUpperAlarm rfl rfl⟩

/-- C9: every alarm the policy creates evaluates a single period, compares
with less-or-equal for the lower alarm and greater-or-equal for the upper
alarm, and runs on the source metric with its period forced to 60
seconds. -/
theorem c9_alarm_configuration (props : StepScalingPolicyProps)
    (res : StepScalingPolicyResult) (hp : stepScalingPolicy props = .ok res) :
    (∀ a, res.lowerAlarm = some a →
        a.evaluationPeriods = 1
        ∧ a.comparisonOperator = ComparisonOperator.LessThanOrEqualToThreshold
        ∧ a.metric = props.metric.withPeriod 60
        ∧ a.metric.periodSec = 60)
    ∧ (∀ a, res.upperAlarm = some a →
        a.evaluationPeriods = 1
        ∧ a.comparisonOperator = ComparisonOperator.GreaterThanOrEqualToThreshold
        ∧ a.metric = props.metric.withPeriod 60
        ∧ a.metric.periodSec = 60) := by
  obtain ⟨ivs, lp, up, hn, hl, hu, hres⟩ := stepScalingPolicy_ok_inv props res hp
  constructor
  · intro a ha
    rw [hres] at ha
    obtain ⟨idx, ho, ha2⟩ := buildLower_ok_alarm props ivs _ lp a hl ha
    subst ha2
    exact ⟨rfl, rfl, rfl, rfl⟩
  · intro a ha
    rw [hres] at ha
    obtain ⟨idx, ho, ha2⟩ := buildUpper_ok_alarm props ivs _ up a hu ha
    subst ha2
    exact ⟨rfl, rfl, rfl, rfl⟩

theorem c9_alarm_configuration_witness :
    exampleLowerAlarm.evaluationPeriods = 1
    ∧ exampleLowerAlarm.comparisonOperator = ComparisonOperator.LessThanOrEqualToThreshold
    ∧ exampleLowerAlarm.metric = exampleProps.metric.withPeriod 60
    ∧ exampleLowerAlarm.metric.periodSec = 60
    ∧ exampleUpperAlarm.comparisonOperator = ComparisonOperator.GreaterThanOrEqualToThreshold :=
  ⟨((c9_alarm_configuration exampleProps exampleResult rfl).1 exampleLowerAlarm rfl).1,
   ((c9_alarm_configuration exampleProps exampleResult rfl).1 exampleLowerAlarm rfl).2.1,
   ((c9_alarm_configuration exampleProps exampleResult rfl).1 exampleLowerAlarm rfl).2.2.1,
   ((c9_alarm_configuration exampleProps exampleResult rfl).1 exampleLowerAlarm rfl).2.2.2,
   ((c9_alarm_configuration exampleProps exampleResult rfl).2 exampleUpperAlarm rfl).2.1⟩


lemma length_lowerStepAdjustments (ivs : List ScalingInterval) (idx : Nat)
    (thr : Option Int) : (lowerStepAdjustments ivs idx thr).length = idx + 1 := by
  simp [lowerStepAdjustments]

lemma length_upperStepAdjustments (ivs : List ScalingInterval) (idx : Nat)
    (thr : Option Int) :
    (upperStepAdjustments ivs idx thr).length = ivs.length - idx := by
  simp [upperStepAdjustments]

lemma lowerStepAdjustments_getD (ivs : List ScalingInterval) (idx : Nat)
    (thr : Option Int) (k : Nat) (hk : k ≤ idx) :
    (lowerStepAdjustments ivs idx thr).getD k default =
      { adjustment := (ivs.getD (idx - k) default).change
        lowerBound :=
          if idx - k ≠ 0 then osub (ivs.getD (idx - k) default).lower thr else none
        upperBound := osub (ivs.getD (idx - k) default).upper thr } := by
  have hlen : k < (lowerStepAdjustments ivs idx thr).length := by
    rw [length_lowerStepAdjustments]; omega
  rw [List.getD_eq_getElem _ _ hlen]
  unfold lowerStepAdjustments
  rw [List.getElem_map, List.getElem_reverse]
  have h1 : (List.range (idx + 1)).length - 1 - k = idx - k := by
    simp [List.length_range]
  simp only [h1, List.getElem_range]

lemma upperStepAdjustments_getD (ivs : List ScalingInterval) (idx : Nat)
    (thr : Option Int) (k : Nat) (hk : k < ivs.length - idx) :
    (upperStepAdjustments ivs idx thr).getD k default =
      { adjustment := (ivs.getD (idx + k) default).change
        lowerBound := osub (ivs.getD (idx + k) default).lower thr
        upperBound :=
          if idx + k ≠ ivs.length - 1 then osub (ivs.getD (idx + k) default).upper thr
          else none } := by
  have hlen : k < (upperStepAdjustments ivs idx thr).length := by
    rw [length_upperStepAdjustments]; omega
  rw [List.getD_eq_getElem _ _ hlen]
  unfold upperStepAdjustments
  rw [List.getElem_map, List.getElem_range']
  simp


/-- C2: each derived direction's step table has one entry per interval
walked from the alarm interval outward; each entry's adjustment is the
interval's change, its bounds are the interval's bounds shifted by the
direction's threshold (the alarm interval's bound adjacent to neutral
becomes 0), and the outermost entry's outward bound is forced open. -/
theorem c2_step_tables (props : StepScalingPolicyProps)
    (ivs : List ScalingInterval) (res : StepScalingPolicyResult)
    (hn : normalizeIntervals props.scalingSteps (changesAreAbsoluteOf props) = .ok ivs)
    (hp : stepScalingPolicy props = .ok res) :
    (∀ l act, (findAlarmThresholds ivs).lowerAlarmIntervalIndex = some l →
        res.lowerAction = some act →
        act.adjustments.length = l + 1
        ∧ ∀ k, k ≤ l →
            (act.adjustments.getD k default).adjustment = (ivs.getD (l - k) default).change
            ∧ (act.adjustments.getD k default).upperBound =
                osub (ivs.getD (l - k) default).upper (ivs.getD l default).upper
            ∧ (act.adjustments.getD k default).lowerBound =
                (if l - k ≠ 0 then
                  osub (ivs.getD (l - k) default).lower (ivs.getD l default).upper
                 else none))
    ∧ (∀ u act, (findAlarmThresholds ivs).upperAlarmIntervalIndex = some u →
        res.upperAction = some act →
        act.adjustments.length = ivs.length - u
        ∧ ∀ k, k < ivs.length - u →
            (act.adjustments.getD k default).adjustment = (ivs.getD (u + k) default).change
            ∧ (act.adjustments.getD k default).lowerBound =
                osub (ivs.getD (u + k) default).lower (ivs.getD u default).lower
            ∧ (act.adjustments.getD k default).upperBound =
                (if u + k ≠ ivs.length - 1 then
                  osub (ivs.getD (u + k) default).upper (ivs.getD u default).lower
                 else none)) := by
  obtain ⟨ivs2, lp, up, hn2, hl, hu, hres⟩ := stepScalingPolicy_ok_inv props res hp
  rw [hn] at hn2
  injection hn2 with hivs
  subst hivs
  constructor
  · intro l act hidx ha
    rw [hres] at ha
    obtain ⟨idx2, agg, ho, hagg, ha2⟩ := buildLower_ok_action props ivs
      ((findAlarmThresholds ivs).lowerAlarmIntervalIndex) lp act hl ha
    rw [hidx] at ho
    injection ho with h2
    subst h2
    subst ha2
    refine ⟨length_lowerStepAdjustments ivs l _, ?_⟩
    intro k hk
    rw [lowerStepAdjustments_getD ivs l _ k hk]
    exact ⟨rfl, rfl, rfl⟩
  · intro u act hidx ha
    rw [hres] at ha
    obtain ⟨idx2, agg, ho, hagg, ha2⟩ := buildUpper_ok_action props ivs
      ((findAlarmThresholds ivs).upperAlarmIntervalIndex) up act hu ha
    rw [hidx] at ho
    injection ho with h2
    subst h2
    subst ha2
    refine ⟨length_upperStepAdjustments ivs u _, ?_⟩
    intro k hk
    rw [upperStepAdjustments_getD ivs u _ k hk]
    exact ⟨rfl, rfl, rfl⟩

theorem c2_step_tables_witness :
    exampleLowerAction.adjustments.length = 0 + 1
    ∧ (exampleLowerAction.adjustments.getD 0 default).adjustment =
        (exampleSteps.getD 0 default).change
    ∧ (exampleLowerAction.adjustments.getD 0 default).upperBound =
        osub (exampleSteps.getD 0 default).upper (exampleSteps.getD 0 default).upper
    ∧ (exampleLowerAction.adjustments.getD 0 default).lowerBound = none
    ∧ (exampleUpperAction.adjustments.getD 0 default).upperBound = none := by
  have hc := c2_step_tables exampleProps exampleSteps exampleResult rfl rfl
  have hlow := hc.1 0 exampleLowerAction rfl rfl
  have hup := hc.2 2 exampleUpperAction rfl rfl
  refine ⟨hlow.1, (hlow.2 0 (by decide)).1, (hlow.2 0 (by decide)).2.1, ?_, ?_⟩
  · have h3 := (hlow.2 0 (by decide)).2.2
    simpa using h3
  · have h4 := (hup.2 0 (by decide)).2.2
    simpa using h4

lemma contiguous_getD (l : List ScalingInterval) (h : contiguous l = true) :
    ∀ i, i + 1 < l.length →
      (l.getD i default).upper = (l.getD (i + 1) default).lower := by
  induction l with
  | nil => intro i hi; simp at hi
  | cons a t ih =>
      cases t with
      | nil => intro i hi; simp at hi
      | cons b rest =>
          simp only [contiguous, Bool.and_eq_true, decide_eq_true_eq] at h
          obtain ⟨h1, h2⟩ := h
          intro i hi
          cases i with
          | zero => simpa using h1
          | succ n =>
              rw [List.getD_cons_succ, List.getD_cons_succ]
              exact ih h2 n (by simpa using hi)

lemma normalizeIntervals_ok_contiguous (steps : List ScalingInterval) (flag : Bool)
    (out : List ScalingInterval) (h : normalizeIntervals steps flag = .ok out) :
    contiguous out = true := by
  unfold normalizeIntervals at h
  split at h
  · exact Except.noConfusion h
  · split at h
    · rename_i hc
      injection h with h2
      rw [← h2]
      exact hc
    · exact Except.noConfusion h

/-- C5: whenever normalization succeeds, the produced sequence is
contiguous: every interval's upper bound equals the next interval's lower
bound; otherwise a configuration error is raised (the result is an
error). -/
theorem c5_normalize_contiguous (steps : List ScalingInterval) (flag : Bool)
    (out : List ScalingInterval) (h : normalizeIntervals steps flag = .ok out) :
    ∀ i, i + 1 < out.length →
      (out.getD i default).upper = (out.getD (i + 1) default).lower :=
  contiguous_getD out (normalizeIntervals_ok_contiguous steps flag out h)

theorem c5_normalize_contiguous_witness :
    (exampleSteps.getD 0 default).upper = (exampleSteps.getD 1 default).lower :=
  c5_normalize_contiguous exampleSteps false exampleSteps rfl 0 (by decide)


lemma wellChained_cons (a b : ScalingInterval) (rest : List ScalingInterval) :
    wellChained (a :: b :: rest) = true ↔
      (a.upper.isSome = true ∧ a.upper = b.lower ∧ wellChained (b :: rest) = true) := by
  simp [wellChained, and_assoc]

lemma wellChained_tail_lower_isSome (a : ScalingInterval) (l : List ScalingInterval)
    (h : wellChained (a :: l) = true) : ∀ x ∈ l, x.lower.isSome = true := by
  induction l generalizing a with
  | nil => simp
  | cons b rest ih =>
      rw [wellChained_cons] at h
      obtain ⟨h1, h2, h3⟩ := h
      intro x hx
      rcases List.mem_cons.mp hx with hxb | hxr
      · subst hxb
        rw [← h2]
        exact h1
      · exact ih b h3 x hxr

lemma filter_lower_isNone_le_one (l : List ScalingInterval)
    (h : wellChained l = true) :
    (l.filter (fun s => s.lower.isNone)).length ≤ 1 := by
  cases l with
  | nil => simp
  | cons a t =>
      have htail : (t.filter (fun s => s.lower.isNone)) = [] := by
        rw [List.filter_eq_nil_iff]
        intro x hx
        have hs := wellChained_tail_lower_isSome a t h x hx
        simp [Option.isNone_eq_false_iff, ← Option.isSome_iff_ne_none, hs]
      rw [List.filter_cons]
      split
      · simp [htail]
      · simp [htail]

lemma filter_upper_isNone_le_one (l : List ScalingInterval)
    (h : wellChained l = true) :
    (l.filter (fun s => s.upper.isNone)).length ≤ 1 := by
  induction l with
  | nil => simp
  | cons a t ih =>
      cases t with
      | nil =>
          rw [List.filter_cons]
          split
          · simp
          · simp
      | cons b rest =>
          rw [wellChained_cons] at h
          obtain ⟨h1, h2, h3⟩ := h
          rw [List.filter_cons, if_neg (by simp [Option.isNone_eq_false_iff,
            ← Option.isSome_iff_ne_none, h1])]
          exact ih h3

lemma fillAux_wellChained (a : ScalingInterval) (l : List ScalingInterval)
    (h : wellChained (a :: l) = true) : fillAux a l = a :: l := by
  induction l generalizing a with
  | nil => rfl
  | cons b rest ih =>
      rw [wellChained_cons] at h
      obtain ⟨h1, h2, h3⟩ := h
      have ha : a.upper.isNone = false := by
        simp [Option.isNone_eq_false_iff, ← Option.isSome_iff_ne_none, h1]
      have hb : b.lower.isNone = false := by
        rw [← h2]
        exact ha
      simp only [fillAux, ha, hb, Bool.false_eq_true, if_false]
      rw [ih b h3]

lemma wellChained_contiguous (l : List ScalingInterval)
    (h : wellChained l = true) : contiguous l = true := by
  induction l with
  | nil => rfl
  | cons a t ih =>
      cases t with
      | nil => rfl
      | cons b rest =>
          rw [wellChained_cons] at h
          obtain ⟨h1, h2, h3⟩ := h
          simp only [contiguous, Bool.and_eq_true, decide_eq_true_eq]
          exact ⟨h2, ih h3⟩

/-- C6: normalization is idempotent: an already-normalized sequence (sorted
by boundary, contiguous with all inner bounds filled) is returned
unchanged. -/
theorem c6_normalize_idempotent (xs : List ScalingInterval) (flag : Bool)
    (hsorted : List.Sorted (fun a b => sortKey a ≤ sortKey b) xs)
    (hchain : wellChained xs = true) :
    normalizeIntervals xs flag = .ok xs := by
  have hL := filter_lower_isNone_le_one xs hchain
  have hU := filter_upper_isNone_le_one xs hchain
  have hfill : fillBoundaries xs = xs := by
    cases xs with
    | nil => rfl
    | cons a t =>
        show fillAux a t = a :: t
        exact fillAux_wellChained a t hchain
  unfold normalizeIntervals
  rw [if_neg (by omega), hsorted.insertionSort_eq, hfill,
    if_pos (wellChained_contiguous xs hchain)]

theorem c6_normalize_idempotent_witness :
    normalizeIntervals exampleSteps false = .ok exampleSteps :=
  c6_normalize_idempotent exampleSteps false (by decide) (by decide)


/-- C4: when the scan for the neutral interval finds index j (the first
zero-change interval), j is interior, and both flanking intervals have
nonzero change, then both alarm indices are defined and adjacent to the
neutral interval. -/
theorem c4_neutral_flanked (ivs : List ScalingInterval) (j : Nat)
    (hj : j + 1 < ivs.length) (h0 : 0 < j)
    (hz : (ivs.getD j default).change = 0)
    (hfirst : ∀ k, k < j → (ivs.getD k default).change ≠ 0)
    (hlo : (ivs.getD (j - 1) default).change ≠ 0)
    (hup : (ivs.getD (j + 1) default).change ≠ 0) :
    findAlarmThresholds ivs =
      { lowerAlarmIntervalIndex := some (j - 1)
        upperAlarmIntervalIndex := some (j + 1) } := by
  have hjlen : j < ivs.length := by omega
  have hfind : ivs.findIdx? (fun i => i.change == 0) = some j := by
    rw [List.findIdx?_eq_some_iff_findIdx_eq]
    refine ⟨hjlen, ?_⟩
    rw [List.findIdx_eq hjlen]
    constructor
    · have hget : ivs[j] = ivs.getD j default := (List.getD_eq_getElem ivs default hjlen).symm
      rw [beq_iff_eq, hget]
      exact hz
    · intro k hk
      have hklen : k < ivs.length := by omega
      have hget : ivs[k] = ivs.getD k default := (List.getD_eq_getElem ivs default hklen).symm
      rw [beq_eq_false_iff_ne, hget]
      exact hfirst k hk
  unfold findAlarmThresholds
  rw [hfind]
  simp only [if_pos (And.intro h0 hlo), if_pos (And.intro hj hup)]

theorem c4_neutral_flanked_witness :
    findAlarmThresholds exampleSteps =
      { lowerAlarmIntervalIndex := some 0, upperAlarmIntervalIndex := some 2 } :=
  c4_neutral_flanked exampleSteps 1 (by decide) (by decide) (by decide)
    (by decide) (by decide) (by decide)

/-- C7 amended: an unsupported statistic raises the configuration error at
construction time whenever at least one alarm direction is actually
derived from the intervals. -/
theorem c7_amended_unsupported_statistic (props : StepScalingPolicyProps)
    (ivs : List ScalingInterval) (e : String)
    (hlen : ¬ props.scalingSteps.length < 2)
    (hn : normalizeIntervals props.scalingSteps (changesAreAbsoluteOf props) = .ok ivs)
    (halarm : (findAlarmThresholds ivs).lowerAlarmIntervalIndex ≠ none
      ∨ (findAlarmThresholds ivs).upperAlarmIntervalIndex ≠ none)
    (hstat : aggregationTypeFromMetric props.metric = .error e) :
    stepScalingPolicy props = .error e := by
  unfold stepScalingPolicy
  rw [if_neg hlen]
  rw [hn]
  cases hL : (findAlarmThresholds ivs).lowerAlarmIntervalIndex with
  | some idx => simp [buildLower, hL, hstat]
  | none =>
      cases hU : (findAlarmThresholds ivs).upperAlarmIntervalIndex with
      | none =>
          rcases halarm with h | h
          · exact absurd hL h
          · exact absurd hU h
      | some idx => simp [buildLower, buildUpper, hL, hU, hstat]

theorem c7_amended_unsupported_statistic_witness :
    stepScalingPolicy p99ExampleProps =
      .error ("Cannot only scale on \x27Minimum\x27, \x27Maximum\x27, \x27Average\x27 metrics, got "
        ++ "p99") :=
  c7_amended_unsupported_statistic p99ExampleProps exampleSteps _
    (by decide) rfl (by decide) rfl


lemma buildLower_agree (p q : StepScalingPolicyProps)
    (hm : p.metric = q.metric) (hc : p.cooldownSeconds = q.cooldownSeconds)
    (hmin : p.minAdjustmentMagnitude = q.minAdjustmentMagnitude)
    (ivs : List ScalingInterval) (o : Option Nat) :
    buildLower p ivs o =
      (buildLower q ivs o).map (Option.map fun pa =>
        (pa.1, { pa.2 with adjustmentType := p.adjustmentType })) := by
  cases o with
  | none => simp [buildLower, Except.map]
  | some idx =>
      cases hagg : aggregationTypeFromMetric q.metric with
      | error e => simp [buildLower, hm, hc, hmin, hagg, Except.map]
      | ok agg => simp [buildLower, hm, hc, hmin, hagg, Except.map]

lemma buildUpper_agree (p q : StepScalingPolicyProps)
    (hm : p.metric = q.metric) (hc : p.cooldownSeconds = q.cooldownSeconds)
    (hmin : p.minAdjustmentMagnitude = q.minAdjustmentMagnitude)
    (ivs : List ScalingInterval) (o : Option Nat) :
    buildUpper p ivs o =
      (buildUpper q ivs o).map (Option.map fun pa =>
        (pa.1, { pa.2 with adjustmentType := p.adjustmentType })) := by
  cases o with
  | none => simp [buildUpper, Except.map]
  | some idx =>
      cases hagg : aggregationTypeFromMetric q.metric with
      | error e => simp [buildUpper, hm, hc, hmin, hagg, Except.map]
      | ok agg => simp [buildUpper, hm, hc, hmin, hagg, Except.map]

lemma policy_observable_agree (p q : StepScalingPolicyProps)
    (hm : p.metric = q.metric) (hs : p.scalingSteps = q.scalingSteps)
    (hc : p.cooldownSeconds = q.cooldownSeconds)
    (hmin : p.minAdjustmentMagnitude = q.minAdjustmentMagnitude)
    (hflag : changesAreAbsoluteOf p = changesAreAbsoluteOf q) :
    (stepScalingPolicy p).map observableOutcome =
      (stepScalingPolicy q).map observableOutcome := by
  unfold stepScalingPolicy
  rw [hs, hflag]
  split
  · rfl
  · cases hn : normalizeIntervals q.scalingSteps (changesAreAbsoluteOf q) with
    | error e => rfl
    | ok ivs =>
        dsimp only
        have hbl := buildLower_agree p q hm hc hmin ivs
          ((findAlarmThresholds ivs).lowerAlarmIntervalIndex)
        have hbu := buildUpper_agree p q hm hc hmin ivs
          ((findAlarmThresholds ivs).upperAlarmIntervalIndex)
        cases hblq : buildLower q ivs ((findAlarmThresholds ivs).lowerAlarmIntervalIndex) with
        | error e =>
            rw [hblq] at hbl
            rw [hbl]
            simp [Except.map]
        | ok lp =>
            rw [hblq] at hbl
            rw [hbl]
            cases hbuq : buildUpper q ivs
                ((findAlarmThresholds ivs).upperAlarmIntervalIndex) with
            | error e =>
                rw [hbuq] at hbu
                rw [hbu]
                simp [Except.map]
            | ok up =>
                rw [hbuq] at hbu
                rw [hbu]
                cases lp <;> cases up <;>
                  simp [Except.map, observableOutcome, Option.map_map, Function.comp]


/-- C10: with the adjustment type omitted, the absolute-capacity flag is
false, exactly as when ChangeInCapacity is supplied; the flag is true
precisely for ExactCapacity (so PercentChangeInCapacity is also relative);
and the omitted and ChangeInCapacity policies produce the same alarms and
step tables. -/
theorem c10_adjustment_type_default (props : StepScalingPolicyProps)
    (h : props.adjustmentType = none) :
    changesAreAbsoluteOf props = false
    ∧ (∀ q : StepScalingPolicyProps,
        changesAreAbsoluteOf q = true ↔ q.adjustmentType = some AdjustmentType.ExactCapacity)
    ∧ (stepScalingPolicy props).map observableOutcome =
        (stepScalingPolicy
          { props with adjustmentType := some AdjustmentType.ChangeInCapacity }).map
            observableOutcome := by
  refine ⟨by simp [changesAreAbsoluteOf, h], ?_, ?_⟩
  · intro q
    cases hq : q.adjustmentType with
    | none => simp [changesAreAbsoluteOf, hq]
    | some t => cases t <;> simp [changesAreAbsoluteOf, hq]
  · exact (policy_observable_agree
      { props with adjustmentType := some AdjustmentType.ChangeInCapacity } props
      rfl rfl rfl rfl (by simp [changesAreAbsoluteOf, h])).symm

theorem c10_adjustment_type_default_witness :
    changesAreAbsoluteOf exampleProps = false
    ∧ (changesAreAbsoluteOf exampleProps = true ↔
        exampleProps.adjustmentType = some AdjustmentType.ExactCapacity)
    ∧ (stepScalingPolicy exampleProps).map observableOutcome =
        (stepScalingPolicy
          { exampleProps with adjustmentType := some AdjustmentType.ChangeInCapacity }).map
            observableOutcome :=
  ⟨(c10_adjustment_type_default exampleProps rfl).1,
   (c10_adjustment_type_default exampleProps rfl).2.1 exampleProps,
   (c10_adjustment_type_default exampleProps rfl).2.2⟩

end StepScaling
